import Mathlib

/-!
Verification of the window-manager core engine (shallow embedding).

Each definition below is translated from the C++ sources of the repository:
window/search data model (src/core/window.hpp, src/filters/search_query.cpp),
the filter engine with its result cache (src/filters/filter.cpp,
src/filters/filter_result.cpp), the focus-operation workflow with rate
limiting (src/core/window_manager.cpp, src/core/focus_operation.cpp), the
window cache (src/core/window_manager.cpp) and the JSON field contract
(src/core/window.cpp).

Modelling conventions:
- machine integers (size_t) are Nat with explicit reduction mod 2 ^ 64 where
  the C++ arithmetic overflows (the cache-key content hash);
- clocks are explicit parameters (Int milliseconds for the rate limiter and
  the TTL cache); elapsed-time fields are plain parameters;
- the std::regex engine is abstracted as an oracle parameter
  (rx : String -> String -> Option Bool), none meaning the pattern failed to
  compile (the code then falls back to substring containment);
- std::hash of std::string is implementation defined; the combine structure
  from the source is kept exactly, parameterised by the hasher, and
  stdHashString (FNV-1a, 64 bit) instantiates it for concrete evaluation;
- enumerator calls (the platform backend) are a record of oracles, calls
  that may throw returning Except String.
-/

namespace WindowManager

/-- Window state enumeration, from src/core/window.hpp. -/
inductive WindowState where
  | Normal
  | Minimized
  | Focused
  | Hidden
deriving DecidableEq, Repr

/-- Core window record, from struct WindowInfo in src/core/window.hpp.
The lastFocusTime field (a steady_clock time_point) is omitted: it is real
time and no claim mentions it. -/
structure WindowInfo where
  handle : String
  title : String
  x : Int
  y : Int
  width : Nat
  height : Nat
  isVisible : Bool
  processId : Nat
  ownerName : String
  workspaceId : String
  workspaceName : String
  isOnCurrentWorkspace : Bool
  state : WindowState
  isFocused : Bool
  isMinimized : Bool
  focusable : Bool
  requiresRestore : Bool
  workspaceSwitchRequired : Bool
deriving DecidableEq, Repr

/-- Workspace record, from struct WorkspaceInfo in src/core/workspace.hpp. -/
structure WorkspaceInfo where
  id : String
  name : String
  index : Int
  isCurrent : Bool
  windowHandles : List String
  platformData : String
deriving DecidableEq, Repr

/-- Search field enumeration, from src/filters/search_query.hpp
(declaration order Title, Owner, Both gives the static_cast values 0, 1, 2
used by the cache key). -/
inductive SearchField where
  | Title
  | Owner
  | Both
deriving DecidableEq, Repr

/-- Match mode enumeration, from src/filters/search_query.hpp. -/
inductive MatchMode where
  | CONTAINS
  | STARTS_WITH
  | EXACT
  | REGEX
deriving DecidableEq, Repr

/-- Search query record, from struct SearchQuery in
src/filters/search_query.hpp; the timestamp field (real time) is omitted. -/
structure SearchQuery where
  query : String
  field : SearchField
  caseSensitive : Bool
  useRegex : Bool
  workspaceFilter : String
  matchMode : MatchMode
deriving DecidableEq, Repr

/-- One-argument SearchQuery constructor, from SearchQuery::SearchQuery in
src/filters/search_query.cpp (field Both, case-insensitive, no regex). -/
def SearchQuery.ofKeyword (keyword : String) : SearchQuery :=
  { query := keyword, field := SearchField.Both, caseSensitive := false,
    useRegex := false, workspaceFilter := "", matchMode := MatchMode.CONTAINS }

/-- Default-constructed SearchQuery, from SearchQuery::SearchQuery() in
src/filters/search_query.cpp. -/
def SearchQuery.empty : SearchQuery := SearchQuery.ofKeyword ""

/-- SearchQuery::isEmpty from src/filters/search_query.cpp. -/
def SearchQuery.isEmpty (q : SearchQuery) : Bool := q.query.isEmpty

/-- Byte-wise lowering as done by std::tolower over unsigned char in the
default C locale (ASCII only), from SearchQuery::performStringMatch. -/
def lowerAscii (s : String) : String :=
  String.mk (s.data.map Char.toLower)

/-- Substring containment, text.find(term) != npos in
SearchQuery::performStringMatch (an empty term is found at position 0). -/
def strContains (text term : String) : Bool :=
  decide (term.data <:+: text.data)

/-- SearchQuery::performStringMatch from src/filters/search_query.cpp.
rx is the std::regex oracle: some b is the outcome of regex_search with a
successfully compiled pattern, none a regex_error (invalid pattern), in
which case the code falls back to containment. -/
def SearchQuery.performStringMatch (q : SearchQuery)
    (rx : String → String → Option Bool) (text searchQuery : String) : Bool :=
  if searchQuery.isEmpty then true
  else
    let targetText := if q.caseSensitive then text else lowerAscii text
    let searchTerm := if q.caseSensitive then searchQuery else lowerAscii searchQuery
    if q.useRegex then
      match rx searchTerm targetText with
      | some b => b
      | none => strContains targetText searchTerm
    else
      strContains targetText searchTerm

/-- SearchQuery::matchesTitle from src/filters/search_query.cpp. -/
def SearchQuery.matchesTitle (q : SearchQuery)
    (rx : String → String → Option Bool) (title : String) : Bool :=
  q.performStringMatch rx title q.query

/-- SearchQuery::matchesOwner from src/filters/search_query.cpp. -/
def SearchQuery.matchesOwner (q : SearchQuery)
    (rx : String → String → Option Bool) (owner : String) : Bool :=
  q.performStringMatch rx owner q.query

/-- SearchQuery::matches from src/filters/search_query.cpp: empty query
matches everything; a non-empty workspace filter must equal the window
workspace id; then the configured fields are compared, Both being an OR
over title and owner. -/
def SearchQuery.matches (q : SearchQuery)
    (rx : String → String → Option Bool) (w : WindowInfo) : Bool :=
  if q.isEmpty then true
  else if ¬ q.workspaceFilter.isEmpty ∧ w.workspaceId ≠ q.workspaceFilter then false
  else
    let titleMatch := if q.field = SearchField.Title ∨ q.field = SearchField.Both
      then q.matchesTitle rx w.title else false
    let ownerMatch := if q.field = SearchField.Owner ∨ q.field = SearchField.Both
      then q.matchesOwner rx w.ownerName else false
    match q.field with
    | SearchField.Title => titleMatch
    | SearchField.Owner => ownerMatch
    | SearchField.Both => titleMatch || ownerMatch

/-! ## FilterResult (src/filters/filter_result.cpp) -/

/-- Workspace grouping built by FilterResult::groupByWorkspace: windows
bucketed by workspaceId. The C++ stores a std::map (keys iterated in sorted
order); the grouping is modelled as an association list in first-encounter
order, which carries the same bindings. -/
def groupByWorkspace (windows : List WindowInfo) :
    List (String × List WindowInfo) :=
  windows.foldl (fun acc w =>
    match acc.lookup w.workspaceId with
    | some ws => acc.map (fun p =>
        if p.1 = w.workspaceId then (p.1, ws ++ [w]) else p)
    | none => acc ++ [(w.workspaceId, [w])]) []

/-- Filter result record, from struct FilterResult in
src/filters/filter_result.hpp; searchTime is milliseconds. -/
structure FilterResult where
  windows : List WindowInfo
  totalCount : Nat
  filteredCount : Nat
  searchTime : Nat
  query : SearchQuery
  workspaces : List WorkspaceInfo
  windowsByWorkspace : List (String × List WindowInfo)
deriving DecidableEq, Repr

/-- FilterResult constructor with workspace list, from
FilterResult::FilterResult in src/filters/filter_result.cpp:
filteredCount is set to windows.size(); totalCount is taken as given,
unchecked; the workspace grouping is built automatically. -/
def mkFilterResultW (windows : List WindowInfo) (total : Nat)
    (query : SearchQuery) (time : Nat) (workspaces : List WorkspaceInfo) :
    FilterResult :=
  { windows := windows, totalCount := total, filteredCount := windows.length,
    searchTime := time, query := query, workspaces := workspaces,
    windowsByWorkspace := groupByWorkspace windows }

/-- Four-argument FilterResult constructor (no workspace list), from
src/filters/filter_result.cpp; the workspaces member stays empty. -/
def mkFilterResult (windows : List WindowInfo) (total : Nat)
    (query : SearchQuery) (time : Nat) : FilterResult :=
  mkFilterResultW windows total query time []

/-- Division guarded against a zero divisor: some (a / b) when b is nonzero,
none otherwise. FilterResult::filterRatio must never reach the none case. -/
def checkedDivRat (a b : Nat) : Option ℚ :=
  if b = 0 then none else some ((a : ℚ) / (b : ℚ))

/-- FilterResult::filterRatio from src/filters/filter_result.cpp: totalCount
of zero short-circuits to 1.0 before any division. The C++ divides doubles;
the value is modelled in the rationals, which is exact here since both
operands are integers (rounding of the quotient is not at issue in the
guard claim). -/
def FilterResult.filterRatio (r : FilterResult) : Option ℚ :=
  if r.totalCount = 0 then some 1
  else checkedDivRat r.filteredCount r.totalCount

/-- FilterResult::isValid from src/filters/filter_result.cpp: false when
filteredCount exceeds totalCount or disagrees with windows.size(); the
performance comparison in the source has an empty body and no effect. -/
def FilterResult.isValid (r : FilterResult) : Bool :=
  if r.filteredCount > r.totalCount then false
  else if r.filteredCount ≠ r.windows.length then false
  else true

/-! ## Filter engine (src/filters/filter.cpp) -/

/-- Comparator of WindowFilterImpl::performFilter: title first, then
process id. The C++ passes the strict order to std::sort (unstable); the
model sorts with mergeSort on the reflexive closure, which produces a list
sorted by the same key and, like std::sort, is only determined up to the
order of fully tied elements. -/
def winLe (a b : WindowInfo) : Bool :=
  if a.title = b.title then a.processId ≤ b.processId else a.title < b.title

/-- Sort step of WindowFilterImpl::performFilter (insertion sort; std sort
is likewise only determined up to the comparator). -/
def sortWins (l : List WindowInfo) : List WindowInfo :=
  List.insertionSort (fun a b => winLe a b = true) l

/-- WindowFilterImpl::performFilter from src/filters/filter.cpp lines
134-178: an empty query keeps only visible windows; a non-empty query keeps
every window matching it, regardless of visibility or workspace; results of
at most 1000 windows are sorted by (title, processId); elapsed measures the
wall-clock time of the call and is passed through to the result. -/
def performFilter (rx : String → String → Option Bool)
    (windows : List WindowInfo) (query : SearchQuery) (elapsed : Nat) :
    FilterResult :=
  let filteredWindows :=
    if query.isEmpty then windows.filter (fun w => w.isVisible)
    else windows.filter (fun w => query.matches rx w)
  let sorted :=
    if filteredWindows.length ≤ 1000 then sortWins filteredWindows
    else filteredWindows
  mkFilterResult sorted windows.length query elapsed

/-- Modulus of size_t arithmetic (64-bit). -/
def sizeTMod : Nat := 2 ^ 64

/-- One combine step of the content hash in
WindowFilterImpl::generateCacheKey:
acc XOR (h + 0x9e3779b9 + (acc shl 6) + (acc shr 2)) in size_t arithmetic. -/
def hashCombineStep (acc h : Nat) : Nat :=
  acc ^^^ ((h % sizeTMod + 0x9e3779b9 + (acc * 64) % sizeTMod + acc / 4) % sizeTMod)

/-- Content hash of WindowFilterImpl::generateCacheKey: a sequential fold
over the windows, combining the hashes of title, owner and workspaceId of
each window in list order, starting from 0. hasher stands for the
implementation-defined std::hash of std::string. -/
def contentHash (hasher : String → Nat) (windows : List WindowInfo) : Nat :=
  windows.foldl (fun acc w =>
    hashCombineStep (hashCombineStep (hashCombineStep acc (hasher w.title))
      (hasher w.ownerName)) (hasher w.workspaceId)) 0

/-- Int value of static_cast on SearchField (declaration order). -/
def SearchField.toNat : SearchField → Nat
  | SearchField.Title => 0
  | SearchField.Owner => 1
  | SearchField.Both => 2

/-- WindowFilterImpl::generateCacheKey from src/filters/filter.cpp lines
109-132: window count, the query fields, and the content hash over
title, owner and workspaceId of every window. -/
def generateCacheKey (hasher : String → Nat) (windows : List WindowInfo)
    (query : SearchQuery) : String :=
  "count:" ++ toString windows.length ++
  "|query:" ++ query.query ++
  "|field:" ++ toString query.field.toNat ++
  "|case:" ++ (if query.caseSensitive then "1" else "0") ++
  "|regex:" ++ (if query.useRegex then "1" else "0") ++
  "|workspace:" ++ query.workspaceFilter ++
  "|hash:" ++ toString (contentHash hasher windows)

/-- Concrete stand-in for the implementation-defined std::hash of
std::string: 64-bit FNV-1a over the characters. Theorems that depend on
hash values of unequal strings use this instantiation; theorems about equal
key content hold for every hasher and are stated generically. -/
def stdHashString (s : String) : Nat :=
  s.data.foldl (fun h c => ((h ^^^ c.toNat) * 1099511628211) % sizeTMod)
    14695981039346656037

/-- Mutable state of WindowFilterImpl (src/filters/filter.hpp): the result
cache keyed by generateCacheKey strings, the caching flag and the hit and
request counters. The std::unordered_map is modelled as an association list
whose lookup finds the most recently stored binding. -/
structure FilterState where
  cachingEnabled : Bool
  cache : List (String × FilterResult)
  cacheHits : Nat
  cacheRequests : Nat
deriving DecidableEq, Repr

/-- WindowFilterImpl initial state from its constructor in
src/filters/filter.cpp: caching on, empty cache, zero counters. -/
def initFilterState : FilterState :=
  { cachingEnabled := true, cache := [], cacheHits := 0, cacheRequests := 0 }

/-- WindowFilterImpl::filter from src/filters/filter.cpp lines 45-69:
counts the request, serves a cached result when caching is on and the key
is present, otherwise computes performFilter and stores it under the key. -/
def FilterState.filter (st : FilterState) (rx : String → String → Option Bool)
    (hasher : String → Nat) (windows : List WindowInfo) (query : SearchQuery)
    (elapsed : Nat) : FilterResult × FilterState :=
  let st' := { st with cacheRequests := st.cacheRequests + 1 }
  if st'.cachingEnabled then
    let cacheKey := generateCacheKey hasher windows query
    match st'.cache.lookup cacheKey with
    | some cached => (cached, { st' with cacheHits := st'.cacheHits + 1 })
    | none =>
      let result := performFilter rx windows query elapsed
      (result, { st' with cache := (cacheKey, result) :: st'.cache })
  else
    (performFilter rx windows query elapsed, st')

/-! ## Focus operations (src/core/focus_status.hpp, focus_operation.cpp,
window_manager.cpp) -/

/-- Focus status enumeration, from src/core/focus_status.hpp. -/
inductive FocusStatus where
  | PENDING
  | VALIDATING
  | SWITCHING_WORKSPACE
  | FOCUSING
  | RESTORING
  | COMPLETED
  | FAILED
  | CANCELLED
deriving DecidableEq, Repr, BEq

/-- Focus request record, from struct FocusRequest in
src/core/focus_request.hpp; the timestamp field is real time and omitted,
the request id (handle plus timestamp microseconds) is built from the call
time parameter. -/
structure FocusRequest where
  targetHandle : String
  requestId : String
  crossWorkspace : Bool
  sourceWorkspace : String
  targetWorkspace : String
deriving DecidableEq, Repr

/-- Focus operation record, from struct FocusOperation in
src/core/focus_operation.hpp; start and end time_points are omitted
(real time, used only for duration reporting). -/
structure FocusOperation where
  request : FocusRequest
  status : FocusStatus
  workspaceSwitched : Bool
  windowRestored : Bool
  errorMessage : String
  platformErrorCode : Int
deriving DecidableEq, Repr

/-- FocusOperation::setStatus from src/core/focus_operation.cpp. -/
def FocusOperation.setStatus (op : FocusOperation) (s : FocusStatus) :
    FocusOperation :=
  { op with status := s }

/-- FocusOperation::complete from src/core/focus_operation.cpp
(sets COMPLETED; the end timestamp is not modelled). -/
def FocusOperation.complete (op : FocusOperation) : FocusOperation :=
  { op with status := FocusStatus.COMPLETED }

/-- FocusOperation::fail from src/core/focus_operation.cpp (sets FAILED,
the message and the platform error code, default 0). -/
def FocusOperation.fail (op : FocusOperation) (error : String) (code : Int) :
    FocusOperation :=
  { op with
    status := FocusStatus.FAILED
    errorMessage := error
    platformErrorCode := code }

/-- FocusOperation::markWorkspaceSwitched from src/core/focus_operation.cpp. -/
def FocusOperation.markWorkspaceSwitched (op : FocusOperation) :
    FocusOperation :=
  { op with workspaceSwitched := true }

/-- Rate limit constants from src/core/window_manager.hpp:
MAX_FOCUS_REQUESTS_PER_SECOND = 10 and RATE_LIMIT_WINDOW = 1 s, the latter
expressed in the millisecond clock of the model. -/
def maxFocusRequestsPerSecond : Nat := 10

/-- RATE_LIMIT_WINDOW in milliseconds. -/
def rateLimitWindowMs : Int := 1000

/-- Prune step of WindowManager::checkRateLimit (lines 570-585): erase the
recorded timestamps strictly older than the window start now - 1 s. -/
def pruneTimestamps (now : Int) (times : List Int) : List Int :=
  times.filter (fun t => ¬ t < now - rateLimitWindowMs)

/-- WindowManager::checkRateLimit from src/core/window_manager.cpp: prune,
then accept iff the remaining count is below the ceiling. Returns the pruned
log (the erase persists in focusRequestTimes_) and the verdict. -/
def checkRateLimit (now : Int) (times : List Int) : List Int × Bool :=
  let pruned := pruneTimestamps now times
  (pruned, pruned.length < maxFocusRequestsPerSecond)

/-- Enumerator oracles consumed by the focus path, one field per
WindowEnumerator method used (src/core/enumerator.hpp). Each call that can
throw returns Except String; the error is the exception message. The
enumerator is treated as a deterministic snapshot for the duration of one
focusWindowByHandle call. -/
structure FocusEnv where
  isWindowValid : String → Bool
  getWindowInfo : String → Except String (Option WindowInfo)
  canSwitchWorkspaces : Except String Bool
  switchToWorkspace : String → Except String Bool
  focusWindow : String → Except String Bool

/-- WindowManager::validateHandleWithTimeout (lines 464-498) as seen from
focusWindowByHandle: an empty handle is rejected before any enumerator
call; otherwise the enumerator isWindowValid oracle is consulted once.
The oracle value already accounts for the timeout and exception cases of
the source (both yield false, never a throw). Returns the number of
enumerator calls made and the verdict. -/
def validateHandleCalls (env : FocusEnv) (handle : String) : Nat × Bool :=
  if handle.isEmpty then (0, false) else (1, env.isWindowValid handle)

/-- WindowManager::focusWindowAcrossWorkspaces from
src/core/window_manager.cpp lines 523-566: re-resolve the window, fall back
to a direct focus when switching is unsupported, otherwise switch first and
focus regardless of the switch outcome; every exception is caught inside
and becomes false. Returns the verdict and the number of enumerator calls. -/
def focusWindowAcrossWorkspaces (env : FocusEnv) (handle : String) :
    Bool × Nat :=
  match env.getWindowInfo handle with
  | Except.error _ => (false, 1)
  | Except.ok none => (false, 1)
  | Except.ok (some wi) =>
    match env.canSwitchWorkspaces with
    | Except.error _ => (false, 2)
    | Except.ok false =>
      match env.focusWindow handle with
      | Except.error _ => (false, 3)
      | Except.ok b => (b, 3)
    | Except.ok true =>
      if ¬ wi.workspaceId.isEmpty then
        match env.switchToWorkspace wi.workspaceId with
        | Except.error _ => (false, 3)
        | Except.ok _ =>
          match env.focusWindow handle with
          | Except.error _ => (false, 4)
          | Except.ok b => (b, 4)
      else
        match env.focusWindow handle with
        | Except.error _ => (false, 3)
        | Except.ok b => (b, 3)

/-- Observable outcome of one WindowManager::focusWindowByHandle call:
the returned Bool, whether the rate limiter accepted the call, the
operation appended to the focus history (none when rejected), the sequence
of statuses the operation went through, the focus-request log after the
call, whether recordFocusRequest ran, and how many enumerator methods were
invoked. -/
structure FocusCallResult where
  ret : Bool
  accepted : Bool
  op : Option FocusOperation
  trace : List FocusStatus
  rl : List Int
  recorded : Bool
  enumCalls : Nat
deriving DecidableEq, Repr

/-- Body of WindowManager::focusWindowByHandle after the rate limiter
accepted the call (src/core/window_manager.cpp lines 377-457): construct
FocusRequest and FocusOperation(PENDING), transition VALIDATING, validate
the handle, transition FOCUSING, resolve the window, check the workspace
constraint, in the cross-workspace case transition SWITCHING_WORKSPACE and
mark workspaceSwitched before attempting the switch-and-focus, otherwise
focus directly; complete or fail the operation accordingly. Exceptions from
the enumerator (Except.error) land in the outer catch, which fails the
operation with the message. Returns (return value, appended operation,
status trace, enumerator calls). -/
def focusAttempt (env : FocusEnv) (handle : String) (allowWorkspaceSwitch : Bool)
    (now : Int) : Bool × FocusOperation × List FocusStatus × Nat :=
  let request : FocusRequest :=
    { targetHandle := handle, requestId := handle ++ "_" ++ toString now,
      crossWorkspace := if ¬ allowWorkspaceSwitch then false else true,
      sourceWorkspace := "", targetWorkspace := "" }
  let op0 : FocusOperation :=
    { request := request, status := FocusStatus.PENDING,
      workspaceSwitched := false, windowRestored := false,
      errorMessage := "", platformErrorCode := 0 }
  let op1 := op0.setStatus FocusStatus.VALIDATING
  let (vCalls, vOk) := validateHandleCalls env handle
  if ¬ vOk then
    (false, op1.fail "Invalid window handle" 0,
     [FocusStatus.PENDING, FocusStatus.VALIDATING, FocusStatus.FAILED], vCalls)
  else
    let op2 := op1.setStatus FocusStatus.FOCUSING
    match env.getWindowInfo handle with
    | Except.error e =>
      (false, op2.fail e 0,
       [FocusStatus.PENDING, FocusStatus.VALIDATING, FocusStatus.FOCUSING,
        FocusStatus.FAILED], vCalls + 1)
    | Except.ok none =>
      (false, op2.fail "Window not found" 0,
       [FocusStatus.PENDING, FocusStatus.VALIDATING, FocusStatus.FOCUSING,
        FocusStatus.FAILED], vCalls + 1)
    | Except.ok (some windowInfo) =>
      let op3 := { op2 with request :=
        { op2.request with
          crossWorkspace := ¬ windowInfo.isOnCurrentWorkspace
          sourceWorkspace := "current"
          targetWorkspace := windowInfo.workspaceId } }
      if ¬ windowInfo.isOnCurrentWorkspace ∧ ¬ allowWorkspaceSwitch then
        (false, op3.fail "Window requires workspace switch but not allowed" 0,
         [FocusStatus.PENDING, FocusStatus.VALIDATING, FocusStatus.FOCUSING,
          FocusStatus.FAILED], vCalls + 1)
      else if ¬ windowInfo.isOnCurrentWorkspace then
        if allowWorkspaceSwitch then
          let op4 := (op3.setStatus FocusStatus.SWITCHING_WORKSPACE).markWorkspaceSwitched
          let (success, aCalls) := focusWindowAcrossWorkspaces env handle
          if success then
            (true, op4.complete,
             [FocusStatus.PENDING, FocusStatus.VALIDATING, FocusStatus.FOCUSING,
              FocusStatus.SWITCHING_WORKSPACE, FocusStatus.COMPLETED],
             vCalls + 1 + aCalls)
          else
            (false, op4.fail "Focus operation failed" 0,
             [FocusStatus.PENDING, FocusStatus.VALIDATING, FocusStatus.FOCUSING,
              FocusStatus.SWITCHING_WORKSPACE, FocusStatus.FAILED],
             vCalls + 1 + aCalls)
        else
          (false, op3.fail "Workspace switching not allowed" 0,
           [FocusStatus.PENDING, FocusStatus.VALIDATING, FocusStatus.FOCUSING,
            FocusStatus.FAILED], vCalls + 1)
      else
        match env.focusWindow handle with
        | Except.error e =>
          (false, op3.fail e 0,
           [FocusStatus.PENDING, FocusStatus.VALIDATING, FocusStatus.FOCUSING,
            FocusStatus.FAILED], vCalls + 2)
        | Except.ok success =>
          if success then
            (true, op3.complete,
             [FocusStatus.PENDING, FocusStatus.VALIDATING, FocusStatus.FOCUSING,
              FocusStatus.COMPLETED], vCalls + 2)
          else
            (false, op3.fail "Focus operation failed" 0,
             [FocusStatus.PENDING, FocusStatus.VALIDATING, FocusStatus.FOCUSING,
              FocusStatus.FAILED], vCalls + 2)

/-- WindowManager::focusWindowByHandle from src/core/window_manager.cpp
lines 370-458: consult the rate limiter first and return false with no
request, no recorded operation and no enumerator call when it rejects;
otherwise record the request timestamp and run the focus attempt, whose
operation is appended to the history on every path. -/
def focusWindowByHandle (env : FocusEnv) (rl : List Int) (now : Int)
    (handle : String) (allowWorkspaceSwitch : Bool) : FocusCallResult :=
  let (pruned, accept) := checkRateLimit now rl
  if ¬ accept then
    { ret := false, accepted := false, op := none, trace := [],
      rl := pruned, recorded := false, enumCalls := 0 }
  else
    let rl2 := pruned ++ [now]
    let (ret, op, trace, calls) := focusAttempt env handle allowWorkspaceSwitch now
    { ret := ret, accepted := true, op := some op, trace := trace,
      rl := rl2, recorded := true, enumCalls := calls }

/-- Sequential focus calls at the given times, threading the rate-limiter
log, as produced by repeated focusWindowByHandle calls on one
WindowManager. -/
def runFocusCalls (env : FocusEnv) (handle : String)
    (allowWorkspaceSwitch : Bool) :
    List Int → List Int → List FocusCallResult × List Int
  | [], rl => ([], rl)
  | t :: ts, rl =>
    let r := focusWindowByHandle env rl t handle allowWorkspaceSwitch
    let (rs, rlF) := runFocusCalls env handle allowWorkspaceSwitch ts r.rl
    (r :: rs, rlF)

/-! ## Window cache (src/core/window_manager.cpp lines 48-202) -/

/-- Classified exception carried by a WindowManagerException: only the
message matters to the cache contract. -/
def WMErr : Type := String

/-- MAX_CACHE_SIZE from src/core/window_manager.hpp. -/
def maxCacheSize : Nat := 10000

/-- CACHE_VALIDITY_DURATION from src/core/window_manager.hpp, in the
millisecond clock of the model (5 seconds). -/
def cacheValidityMs : Int := 5000

/-- Window cache state of WindowManager: the cached list, its validity
flag, the refresh timestamp and the caching switch. -/
structure WinCacheState where
  cachedWindows : List WindowInfo
  cacheValid : Bool
  lastUpdate : Int
  cachingEnabled : Bool
deriving DecidableEq, Repr

/-- Eviction policy of WindowManager::updateCache: above MAX_CACHE_SIZE,
drop the non-visible windows first, then hard-truncate to the cap. -/
def evictWindows (windows : List WindowInfo) : List WindowInfo :=
  if windows.length > maxCacheSize then
    let visible := windows.filter (fun w => w.isVisible)
    if visible.length > maxCacheSize then visible.take maxCacheSize
    else visible
  else windows

/-- Title sort of WindowManager::updateCache. Both source branches (std sort
at up to 100 entries, stable sort above) order by title alone; the model
uses one merge sort, which agrees with both up to the order of equal
titles. -/
def sortByTitle (windows : List WindowInfo) : List WindowInfo :=
  List.insertionSort (fun a b => a.title ≤ b.title) windows

/-- WindowManager::updateCache from src/core/window_manager.cpp lines
146-190: on success store the evicted, sorted list with a fresh timestamp
and mark the cache valid; when enumerateWindows throws, clear the cache,
mark it invalid and re-throw (the returned Option WMErr is the exception
propagating to the caller). enumResult is the outcome of the
enumerateWindows call. -/
def updateCache (enumResult : Except WMErr (List WindowInfo)) (now : Int)
    (s : WinCacheState) : WinCacheState × Option WMErr :=
  match enumResult with
  | Except.ok windows =>
    ({ s with
       cachedWindows := sortByTitle (evictWindows windows)
       cacheValid := true
       lastUpdate := now }, none)
  | Except.error e =>
    ({ s with
       cachedWindows := []
       cacheValid := false }, some e)

/-- WindowManager::isCacheValid from src/core/window_manager.cpp: the flag
must be set and the age must be below the 5 s TTL. -/
def isCacheValid (now : Int) (s : WinCacheState) : Bool :=
  s.cacheValid ∧ now - s.lastUpdate < cacheValidityMs

/-- WindowManager::getAllWindows from src/core/window_manager.cpp lines
48-57, the hard entry point: serve the cache when enabled and fresh,
otherwise refresh through updateCache; an updateCache exception propagates
to the caller as Except.error. -/
def getAllWindows (enumResult : Except WMErr (List WindowInfo)) (now : Int)
    (s : WinCacheState) : WinCacheState × Except WMErr (List WindowInfo) :=
  if s.cachingEnabled ∧ isCacheValid now s then (s, Except.ok s.cachedWindows)
  else
    match updateCache enumResult now s with
    | (s', none) => (s', Except.ok s'.cachedWindows)
    | (s', some e) => (s', Except.error e)

/-- WindowManager::refreshWindows from src/core/window_manager.cpp lines
59-66, the soft entry point: always refresh; a WindowManagerException from
updateCache is swallowed into false instead of propagating. -/
def refreshWindows (enumResult : Except WMErr (List WindowInfo)) (now : Int)
    (s : WinCacheState) : WinCacheState × Bool :=
  match updateCache enumResult now s with
  | (s', none) => (s', true)
  | (s', some _) => (s', false)

/-! ## Wire format of WindowInfo (src/core/window.cpp lines 138-167) -/

/-- JSON value emitted for one field: quoted string, bare number or bare
boolean. -/
inductive Jval where
  | str (s : String)
  | num (n : Int)
  | bool (b : Bool)
deriving DecidableEq, Repr

/-- JSON type of an emitted value. -/
inductive JKind where
  | kstr
  | knum
  | kbool
deriving DecidableEq, Repr

/-- Type of a Jval. -/
def Jval.kind : Jval → JKind
  | Jval.str _ => JKind.kstr
  | Jval.num _ => JKind.knum
  | Jval.bool _ => JKind.kbool

/-- State string of WindowInfo::toJson (the switch over WindowState). -/
def WindowState.toJsonString : WindowState → String
  | WindowState.Normal => "Normal"
  | WindowState.Minimized => "Minimized"
  | WindowState.Focused => "Focused"
  | WindowState.Hidden => "Hidden"

/-- WindowInfo::toJson from src/core/window.cpp lines 138-167, as the
ordered field list of the emitted JSON object (names in emission order with
the value each stream insertion writes; the surrounding braces, commas and
whitespace of the source are presentation only and not modelled). -/
def WindowInfo.toJsonFields (w : WindowInfo) : List (String × Jval) :=
  [("handle", Jval.str w.handle),
   ("title", Jval.str w.title),
   ("x", Jval.num w.x),
   ("y", Jval.num w.y),
   ("width", Jval.num w.width),
   ("height", Jval.num w.height),
   ("isVisible", Jval.bool w.isVisible),
   ("processId", Jval.num w.processId),
   ("ownerName", Jval.str w.ownerName),
   ("workspaceId", Jval.str w.workspaceId),
   ("workspaceName", Jval.str w.workspaceName),
   ("isOnCurrentWorkspace", Jval.bool w.isOnCurrentWorkspace),
   ("state", Jval.str w.state.toJsonString),
   ("isFocused", Jval.bool w.isFocused),
   ("isMinimized", Jval.bool w.isMinimized)]

/-- Field names of the legacy wire contract, in their emission order. -/
def legacyFieldNames : List String :=
  ["handle", "title", "x", "y", "width", "height", "isVisible",
   "processId", "ownerName"]

/-- Field names appended by the workspace enhancement, in their emission
order. -/
def newerFieldNames : List String :=
  ["workspaceId", "workspaceName", "isOnCurrentWorkspace", "state",
   "isFocused", "isMinimized"]

/-! ## Concrete sample data used by witnesses and counterexamples -/

/-- Sample window with the given searchable fields; the remaining fields
are fixed valid values. -/
def mkSampleWindow (title owner wsId : String) (vis onCur : Bool)
    (pid : Nat) : WindowInfo :=
  { handle := "h1", title := title, x := 0, y := 0, width := 100,
    height := 100, isVisible := vis, processId := pid, ownerName := owner,
    workspaceId := wsId, workspaceName := "WS", isOnCurrentWorkspace := onCur,
    state := WindowState.Normal, isFocused := false, isMinimized := false,
    focusable := true, requiresRestore := false,
    workspaceSwitchRequired := false }

/-- Regex oracle standing for a std::regex engine that compiles nothing
(every theorem using it only exercises non-regex queries). -/
def rxNone : String → String → Option Bool := fun _ _ => none

/-- Projection of a window to the fields hashed by generateCacheKey. -/
def keyTriple (w : WindowInfo) : String × String × String :=
  (w.title, w.ownerName, w.workspaceId)

/-- C1 counterexample state: the result cache after an empty-query filter
call on a single visible window. -/
def c1FirstState : FilterState :=
  (initFilterState.filter rxNone stdHashString
    [mkSampleWindow "a" "b" "w" true true 1] SearchQuery.empty 0).2

/-- C1 counterexample result: the next empty-query filter call on the same
window turned non-visible. -/
def c1SecondResult : FilterResult :=
  (c1FirstState.filter rxNone stdHashString
    [mkSampleWindow "a" "b" "w" false true 1] SearchQuery.empty 0).1

/-- C2 counterexample state: the result cache after filtering a window of
process id 1 with the non-empty query a. -/
def c2FirstState : FilterState :=
  (initFilterState.filter rxNone stdHashString
    [mkSampleWindow "a" "b" "w" true true 1] (SearchQuery.ofKeyword "a") 0).2

/-- C2 counterexample result: the next filter call with the same query on
the same window reincarnated with process id 2. -/
def c2SecondResult : FilterResult :=
  (c2FirstState.filter rxNone stdHashString
    [mkSampleWindow "a" "b" "w" true true 2] (SearchQuery.ofKeyword "a") 0).1

/-- Enumerator oracle for the C3 witness (every call fails benignly). -/
def c3Env : FocusEnv :=
  { isWindowValid := fun _ => true,
    getWindowInfo := fun _ => Except.ok none,
    canSwitchWorkspaces := Except.ok false,
    switchToWorkspace := fun _ => Except.ok false,
    focusWindow := fun _ => Except.ok false }

/-- Position of each status in the order the code actually traverses:
PENDING, VALIDATING, FOCUSING, then optionally SWITCHING_WORKSPACE, then a
terminal status (RESTORING and CANCELLED never occur in
focusWindowByHandle). -/
def statusRank : FocusStatus → Nat
  | FocusStatus.PENDING => 0
  | FocusStatus.VALIDATING => 1
  | FocusStatus.FOCUSING => 2
  | FocusStatus.SWITCHING_WORKSPACE => 3
  | FocusStatus.RESTORING => 4
  | FocusStatus.COMPLETED => 5
  | FocusStatus.FAILED => 5
  | FocusStatus.CANCELLED => 5

/-- Enumerator oracle for the C4 counterexample: the target window resolves
off the current workspace and every platform call succeeds. -/
def c4Env : FocusEnv :=
  { isWindowValid := fun _ => true,
    getWindowInfo := fun _ =>
      Except.ok (some (mkSampleWindow "a" "b" "w2" true false 1)),
    canSwitchWorkspaces := Except.ok true,
    switchToWorkspace := fun _ => Except.ok true,
    focusWindow := fun _ => Except.ok true }

/-- Enumerator oracle for the C5 witness: the window resolves on the
current workspace and the focus call succeeds. -/
def c5Env : FocusEnv :=
  { isWindowValid := fun _ => true,
    getWindowInfo := fun _ =>
      Except.ok (some (mkSampleWindow "a" "b" "w" true true 1)),
    canSwitchWorkspaces := Except.ok true,
    switchToWorkspace := fun _ => Except.ok true,
    focusWindow := fun _ => Except.ok true }

/-! ## C7: FilterResult constructor counts -/

/-- C7 counterexample: the FilterResult constructor does not enforce
filteredCount less-or-equal totalCount; constructing from one window and a
stated total of 0 (as the repository test ValidationChecks also does with
5 windows and total 3) yields filteredCount 1 greater than totalCount 0,
and its own isValid check reports the violation. -/
theorem c7_constructor_violates_le_counterexample :
    (mkFilterResult [mkSampleWindow "a" "b" "w" true true 1] 0
        SearchQuery.empty 0).filteredCount >
      (mkFilterResult [mkSampleWindow "a" "b" "w" true true 1] 0
        SearchQuery.empty 0).totalCount ∧
    (mkFilterResult [mkSampleWindow "a" "b" "w" true true 1] 0
        SearchQuery.empty 0).isValid = false := by
  decide

/-- C7 amended: every constructed FilterResult (with or without a workspace
list) satisfies filteredCount = windows.size; the second half of the
claimed invariant, filteredCount less-or-equal totalCount, holds exactly
when the caller passes a total at least the window count, which is what
FilterResult::isValid checks rather than the constructor enforcing it. -/
theorem c7_constructor_counts (windows : List WindowInfo) (total : Nat)
    (query : SearchQuery) (time : Nat) (workspaces : List WorkspaceInfo) :
    (mkFilterResultW windows total query time workspaces).filteredCount
        = windows.length ∧
    ((mkFilterResultW windows total query time workspaces).isValid = true
        ↔ windows.length ≤ total) ∧
    (mkFilterResult windows total query time).filteredCount
        = windows.length ∧
    ((mkFilterResult windows total query time).isValid = true
        ↔ windows.length ≤ total) := by
  refine ⟨rfl, ?_, rfl, ?_⟩ <;>
    simp [mkFilterResult, mkFilterResultW, FilterResult.isValid]

/-! ## C9: wire-format field contract -/

/-- C9: the wire record of every WindowInfo emits the nine legacy fields
first, each with its original JSON type (handle, title, ownerName as
quoted strings; x, y, width, height, processId as bare numbers; isVisible
as a bare boolean), followed by the six appended newer fields with their
types. -/
theorem c9_tojson_field_contract (w : WindowInfo) :
    (w.toJsonFields.map (fun p => p.1) = legacyFieldNames ++ newerFieldNames)
    ∧ (w.toJsonFields.map (fun p => p.2.kind) =
        [JKind.kstr, JKind.kstr, JKind.knum, JKind.knum, JKind.knum,
         JKind.knum, JKind.kbool, JKind.knum, JKind.kstr, JKind.kstr,
         JKind.kstr, JKind.kbool, JKind.kstr, JKind.kbool, JKind.kbool]) := by
  exact ⟨rfl, rfl⟩

/-! ## C10: filterRatio totality -/

/-- C10: FilterResult::filterRatio is total; a zero totalCount
short-circuits to exactly 1 before the division, and otherwise the result
is filteredCount over totalCount with the checked division never reaching
its zero-divisor branch. -/
theorem c10_filter_ratio_total (r : FilterResult) :
    r.filterRatio = some (if r.totalCount = 0 then (1 : ℚ)
      else (r.filteredCount : ℚ) / (r.totalCount : ℚ)) := by
  by_cases h : r.totalCount = 0 <;>
    simp [FilterResult.filterRatio, checkedDivRat, h]

/-! ## C8: cache-key content dependence -/

/-- Content hash as a fold over the hashed field triples. -/
theorem contentHash_eq_foldl_map (hasher : String → Nat)
    (windows : List WindowInfo) :
    contentHash hasher windows =
      (windows.map keyTriple).foldl (fun acc t =>
        hashCombineStep (hashCombineStep (hashCombineStep acc (hasher t.1))
          (hasher t.2.1)) (hasher t.2.2)) 0 := by
  rw [List.foldl_map]
  rfl

/-- C8 counterexample: the cache key is not order-independent. The two-
window list below and its transposition are permutations of one another,
yet generateCacheKey (the hash-combine fold is sequential, each step mixing
the accumulator through shifts and xor) produces different keys, so a
lookup with the permuted list misses the memoized entry. The hasher is the
concrete stdHashString stand-in; only the inequality of the hash values of
the two distinct titles matters, not their exact values. -/
theorem c8_key_order_dependent_counterexample :
    List.Perm [mkSampleWindow "a" "b" "w" true true 1,
               mkSampleWindow "b" "b" "w" true true 1]
              [mkSampleWindow "b" "b" "w" true true 1,
               mkSampleWindow "a" "b" "w" true true 1] ∧
    generateCacheKey stdHashString
        [mkSampleWindow "a" "b" "w" true true 1,
         mkSampleWindow "b" "b" "w" true true 1] SearchQuery.empty ≠
      generateCacheKey stdHashString
        [mkSampleWindow "b" "b" "w" true true 1,
         mkSampleWindow "a" "b" "w" true true 1] SearchQuery.empty := by
  decide

/-- C8 amended: the cache key depends only on the window count, the query
fields, and the sequence of (title, owner, workspaceId) triples in list
order — not on visibility, geometry, process id or any other window field;
two window lists presenting the same triple sequence (order included)
always share one key, for every choice of string hasher, while reordering
the triples can change the key. -/
theorem c8_cache_key_content_only (hasher : String → Nat)
    (query : SearchQuery) (windows windows' : List WindowInfo)
    (h : windows.map keyTriple = windows'.map keyTriple) :
    generateCacheKey hasher windows query =
      generateCacheKey hasher windows' query := by
  have hlen : windows.length = windows'.length := by
    have := congrArg List.length h
    simpa using this
  have hhash : contentHash hasher windows = contentHash hasher windows' := by
    rw [contentHash_eq_foldl_map, contentHash_eq_foldl_map, h]
  unfold generateCacheKey
  rw [hlen, hhash]

/-- C8 witness: two singleton lists differing only in visibility share the
same key (the hashed triples agree), instantiating the amended theorem at
the concrete FNV hasher. -/
theorem c8_cache_key_content_only_witness :
    ([mkSampleWindow "a" "b" "w" true true 1].map keyTriple =
      [mkSampleWindow "a" "b" "w" false true 1].map keyTriple) ∧
    generateCacheKey stdHashString [mkSampleWindow "a" "b" "w" true true 1]
        SearchQuery.empty =
      generateCacheKey stdHashString [mkSampleWindow "a" "b" "w" false true 1]
        SearchQuery.empty :=
  ⟨by decide,
   c8_cache_key_content_only stdHashString SearchQuery.empty
     [mkSampleWindow "a" "b" "w" true true 1]
     [mkSampleWindow "a" "b" "w" false true 1] (by decide)⟩

/-! ## C1 and C2: filtering semantics -/

/-- Sort step of performFilter permutes its input (the guard only decides
whether the sort runs). -/
theorem sortIfSmall_perm (l : List WindowInfo) :
    (if l.length ≤ 1000 then sortWins l else l).Perm l := by
  split
  · exact List.perm_insertionSort (fun a b => winLe a b = true) l
  · exact List.Perm.refl l

/-- Windows of performFilter are a permutation of the windows kept by the
predicate the query selects: the visibility gate for an empty query, the
match predicate otherwise. -/
theorem performFilter_windows_perm (rx : String → String → Option Bool)
    (windows : List WindowInfo) (query : SearchQuery) (elapsed : Nat) :
    (performFilter rx windows query elapsed).windows.Perm
      (if query.isEmpty then windows.filter (fun w => w.isVisible)
       else windows.filter (fun w => query.matches rx w)) := by
  unfold performFilter mkFilterResult mkFilterResultW
  split <;> exact sortIfSmall_perm _

/-- Windows returned by a filter call that does not hit the cache are the
freshly computed performFilter windows. -/
theorem filter_miss_windows (rx : String → String → Option Bool)
    (hasher : String → Nat) (st : FilterState) (windows : List WindowInfo)
    (query : SearchQuery) (elapsed : Nat)
    (hmiss : st.cachingEnabled = true →
      st.cache.lookup (generateCacheKey hasher windows query) = none) :
    (st.filter rx hasher windows query elapsed).1 =
      performFilter rx windows query elapsed := by
  unfold FilterState.filter
  by_cases hEn : st.cachingEnabled
  · simp [hEn, hmiss hEn]
  · simp [hEn]

/-- C1 counterexample: a cache-served empty-query result is not always the
visible windows of the presented list. The cache key hashes only title,
owner and workspaceId (for any hasher, since the strings here are equal),
so the call on the now-invisible window hits the entry memoized for the
visible one and returns that window, while the visible windows of the
presented list are empty. -/
theorem c1_cache_hit_stale_counterexample :
    c1SecondResult.windows = [mkSampleWindow "a" "b" "w" true true 1] ∧
    ¬ c1SecondResult.windows.Perm
        (List.filter (fun w => w.isVisible)
          [mkSampleWindow "a" "b" "w" false true 1]) := by
  decide

/-- C1 amended: searching with an empty term returns exactly the visible
windows of W (as a set; the result is sorted) whenever the result is
freshly computed, that is on every call that does not serve a
filter-result-cache hit: caching disabled, or no entry under the key of
(W, q). A cache hit instead replays the result memoized for an earlier
list with the same key, which may differ from W in visibility since
isVisible is not part of the key. -/
theorem c1_empty_query_visible (rx : String → String → Option Bool)
    (hasher : String → Nat) (st : FilterState) (windows : List WindowInfo)
    (query : SearchQuery) (elapsed : Nat) (hq : query.isEmpty = true)
    (hmiss : st.cachingEnabled = true →
      st.cache.lookup (generateCacheKey hasher windows query) = none) :
    (st.filter rx hasher windows query elapsed).1.windows.Perm
      (windows.filter (fun w => w.isVisible)) := by
  rw [filter_miss_windows rx hasher st windows query elapsed hmiss]
  have h := performFilter_windows_perm rx windows query elapsed
  rwa [if_pos hq] at h

/-- C1 witness: the amended theorem applied to a fresh filter and one
visible window. -/
theorem c1_empty_query_visible_witness :
    SearchQuery.empty.isEmpty = true ∧
    (initFilterState.filter rxNone stdHashString
        [mkSampleWindow "a" "b" "w" true true 1] SearchQuery.empty 0).1.windows.Perm
      (List.filter (fun w => w.isVisible)
        [mkSampleWindow "a" "b" "w" true true 1]) :=
  ⟨by decide,
   c1_empty_query_visible rxNone stdHashString initFilterState
     [mkSampleWindow "a" "b" "w" true true 1] SearchQuery.empty 0
     (by decide) (fun _ => rfl)⟩

/-- C2 counterexample: the windows of a cache-served filter result need not
be a subset of the presented list W. The process id is not hashed into the
cache key, so the call on the pid-2 list hits the entry memoized for the
pid-1 list and returns the pid-1 window, which is not a member of W. -/
theorem c2_cache_hit_not_subset_counterexample :
    (SearchQuery.ofKeyword "a").isEmpty = false ∧
    c2SecondResult.windows = [mkSampleWindow "a" "b" "w" true true 1] ∧
    mkSampleWindow "a" "b" "w" true true 1 ∉
      [mkSampleWindow "a" "b" "w" true true 2] := by
  decide

/-- C2 amended: for every non-empty query, the freshly computed filter
result (every call that does not serve a cache hit) consists exactly of the
windows of W matching the query — hence a subset of W, every member
matching, applied regardless of visibility and across all workspaces. A
cache hit instead replays the windows memoized for an earlier list with
the same key, which still matched the query then but need not belong to
the current W. -/
theorem c2_nonempty_query_matches (rx : String → String → Option Bool)
    (hasher : String → Nat) (st : FilterState) (windows : List WindowInfo)
    (query : SearchQuery) (elapsed : Nat) (hq : query.isEmpty = false)
    (hmiss : st.cachingEnabled = true →
      st.cache.lookup (generateCacheKey hasher windows query) = none) :
    (st.filter rx hasher windows query elapsed).1.windows.Perm
      (windows.filter (fun w => query.matches rx w)) ∧
    ∀ w ∈ (st.filter rx hasher windows query elapsed).1.windows,
      w ∈ windows ∧ query.matches rx w = true := by
  rw [filter_miss_windows rx hasher st windows query elapsed hmiss]
  have h := performFilter_windows_perm rx windows query elapsed
  rw [if_neg (by simp [hq])] at h
  refine ⟨h, fun w hw => ?_⟩
  have hmem := h.mem_iff.mp hw
  exact List.mem_filter.mp hmem

/-- C2 witness: the amended theorem applied to a fresh filter, one matching
non-visible window and the non-empty query a. -/
theorem c2_nonempty_query_matches_witness :
    (SearchQuery.ofKeyword "a").isEmpty = false ∧
    ((initFilterState.filter rxNone stdHashString
        [mkSampleWindow "a" "b" "w" false false 1]
        (SearchQuery.ofKeyword "a") 0).1.windows.Perm
      (List.filter (fun w => (SearchQuery.ofKeyword "a").matches rxNone w)
        [mkSampleWindow "a" "b" "w" false false 1]) ∧
     ∀ w ∈ (initFilterState.filter rxNone stdHashString
        [mkSampleWindow "a" "b" "w" false false 1]
        (SearchQuery.ofKeyword "a") 0).1.windows,
       w ∈ [mkSampleWindow "a" "b" "w" false false 1] ∧
       (SearchQuery.ofKeyword "a").matches rxNone w = true) :=
  ⟨by decide,
   c2_nonempty_query_matches rxNone stdHashString initFilterState
     [mkSampleWindow "a" "b" "w" false false 1] (SearchQuery.ofKeyword "a") 0
     (by decide) (fun _ => rfl)⟩

/-! ## C6: cache behaviour on enumerator failure -/

/-- C6: when enumerateWindows throws during a refresh, the window cache is
left cleared and marked invalid — so every later read takes the refetch
path — and the exception propagates out of the hard entry point
getAllWindows (taken on any state whose cache is not served, i.e. during a
refresh) while the soft entry point refreshWindows swallows it into false
with the same cleared state. -/
theorem c6_enumerator_failure (e : WMErr) (now : Int) (s : WinCacheState)
    (hrefresh : ¬ (s.cachingEnabled = true ∧ isCacheValid now s = true)) :
    (getAllWindows (Except.error e) now s).2 = Except.error e ∧
    (getAllWindows (Except.error e) now s).1.cachedWindows = [] ∧
    (getAllWindows (Except.error e) now s).1.cacheValid = false ∧
    (∀ t : Int, isCacheValid t (getAllWindows (Except.error e) now s).1 = false) ∧
    (refreshWindows (Except.error e) now s).2 = false ∧
    (refreshWindows (Except.error e) now s).1.cachedWindows = [] ∧
    (refreshWindows (Except.error e) now s).1.cacheValid = false := by
  unfold getAllWindows refreshWindows updateCache
  simp only [if_neg hrefresh]
  refine ⟨?_, ?_, ?_, fun t => ?_, ?_, ?_, ?_⟩ <;> simp [isCacheValid]

/-- C6 witness: the theorem applied at a concrete invalid-cache state. -/
theorem c6_enumerator_failure_witness :
    (¬ ((⟨[], false, 0, true⟩ : WinCacheState).cachingEnabled = true ∧
        isCacheValid 0 ⟨[], false, 0, true⟩ = true)) ∧
    ((getAllWindows (Except.error "enumeration failed") 0
        ⟨[], false, 0, true⟩).2 = Except.error "enumeration failed" ∧
     (getAllWindows (Except.error "enumeration failed") 0
        ⟨[], false, 0, true⟩).1.cachedWindows = [] ∧
     (getAllWindows (Except.error "enumeration failed") 0
        ⟨[], false, 0, true⟩).1.cacheValid = false ∧
     (∀ t : Int, isCacheValid t (getAllWindows
        (Except.error "enumeration failed") 0 ⟨[], false, 0, true⟩).1 = false) ∧
     (refreshWindows (Except.error "enumeration failed") 0
        ⟨[], false, 0, true⟩).2 = false ∧
     (refreshWindows (Except.error "enumeration failed") 0
        ⟨[], false, 0, true⟩).1.cachedWindows = [] ∧
     (refreshWindows (Except.error "enumeration failed") 0
        ⟨[], false, 0, true⟩).1.cacheValid = false) :=
  ⟨by simp [isCacheValid],
   c6_enumerator_failure "enumeration failed" 0 ⟨[], false, 0, true⟩
     (by simp [isCacheValid])⟩

/-! ## C3: rate limiter -/

/-- Fields of a rate-limited (rejected) focus call: false is returned with
no request constructed, no operation created or appended, nothing recorded
and no enumerator method invoked; only the prune of the timestamp log
persists. -/
theorem focusWindowByHandle_rejected (env : FocusEnv) (rl : List Int)
    (now : Int) (handle : String) (allow : Bool)
    (h : ¬ (pruneTimestamps now rl).length < maxFocusRequestsPerSecond) :
    focusWindowByHandle env rl now handle allow =
      { ret := false, accepted := false, op := none, trace := [],
        rl := pruneTimestamps now rl, recorded := false, enumCalls := 0 } := by
  unfold focusWindowByHandle checkRateLimit
  simp [h]

/-- Admitted focus calls append exactly the call time to the pruned log. -/
theorem focusWindowByHandle_accepted (env : FocusEnv) (rl : List Int)
    (now : Int) (handle : String) (allow : Bool)
    (h : (pruneTimestamps now rl).length < maxFocusRequestsPerSecond) :
    (focusWindowByHandle env rl now handle allow).accepted = true ∧
    (focusWindowByHandle env rl now handle allow).rl =
      pruneTimestamps now rl ++ [now] := by
  unfold focusWindowByHandle checkRateLimit
  rcases hfa : focusAttempt env handle allow now with ⟨ret, op, tr, calls⟩
  simp [h, hfa]

/-- Sequential focus calls whose times all lie in one window-length band
are all accepted as long as at most the rate ceiling of timestamps
accumulates: the prune removes nothing and each call appends its time. -/
theorem runFocusCalls_within_band (env : FocusEnv) (handle : String)
    (allow : Bool) (lo : Int) :
    ∀ (ts rl : List Int),
      (∀ x ∈ rl, lo ≤ x ∧ x < lo + rateLimitWindowMs) →
      (∀ x ∈ ts, lo ≤ x ∧ x < lo + rateLimitWindowMs) →
      rl.length + ts.length ≤ maxFocusRequestsPerSecond →
      ((runFocusCalls env handle allow ts rl).1.all
          (fun r => r.accepted) = true) ∧
      (runFocusCalls env handle allow ts rl).2 = rl ++ ts := by
  intro ts
  induction ts with
  | nil =>
    intro rl _ _ _
    exact ⟨rfl, by simp [runFocusCalls]⟩
  | cons t ts ih =>
    intro rl hrl hts hlen
    have hband : lo ≤ t ∧ t < lo + rateLimitWindowMs :=
      hts t (List.mem_cons_self t ts)
    have hprune : pruneTimestamps t rl = rl := by
      unfold pruneTimestamps
      apply List.filter_eq_self.mpr
      intro x hx
      have hxb := hrl x hx
      simp only [decide_eq_true_eq, Decidable.not_not]
      unfold rateLimitWindowMs at hband hxb ⊢
      omega
    have hadm : (pruneTimestamps t rl).length < maxFocusRequestsPerSecond := by
      rw [hprune]
      simp only [List.length_cons] at hlen
      omega
    obtain ⟨hA, hRl⟩ := focusWindowByHandle_accepted env rl t handle allow hadm
    rw [hprune] at hRl
    have hih := ih (rl ++ [t])
      (by
        intro x hx
        rcases List.mem_append.mp hx with hx | hx
        · exact hrl x hx
        · simp only [List.mem_singleton] at hx
          exact hx ▸ hband)
      (fun x hx => hts x (List.mem_cons_of_mem t hx))
      (by
        simp only [List.length_cons] at hlen
        simp only [List.length_append, List.length_cons, List.length_nil]
        omega)
    unfold runFocusCalls
    simp only [hRl]
    rcases hpair : runFocusCalls env handle allow ts (rl ++ [t]) with ⟨rs, rlF⟩
    rw [hpair] at hih
    simp only [List.all_cons, hA, Bool.true_and]
    refine ⟨hih.1, ?_⟩
    have h2 := hih.2
    simp only at h2
    rw [h2]
    simp

/-- C3: the rate limiter accepts a call iff after pruning entries older than
the 1-second window fewer than 10 remain; hence when 10 calls are accepted
within one second (each recording its timestamp), an 11th call inside the
same second is rejected: it returns false with no FocusRequest or
FocusOperation constructed, nothing appended to the focus history, nothing
recorded in the request log, and zero enumerator methods invoked. -/
theorem c3_rate_limiter (env : FocusEnv) (handle : String) (allow : Bool)
    (ts : List Int) (t lo : Int) (hlen : ts.length = 10)
    (hband : ∀ x ∈ ts, lo ≤ x ∧ x < lo + rateLimitWindowMs)
    (ht : lo ≤ t ∧ t < lo + rateLimitWindowMs) :
    ((runFocusCalls env handle allow ts []).1.all
        (fun r => r.accepted) = true) ∧
    (runFocusCalls env handle allow ts []).2 = ts ∧
    focusWindowByHandle env (runFocusCalls env handle allow ts []).2 t
        handle allow =
      { ret := false, accepted := false, op := none, trace := [],
        rl := ts, recorded := false, enumCalls := 0 } := by
  have hrun := runFocusCalls_within_band env handle allow lo ts []
    (by intro x hx; cases hx) hband
    (by simp [hlen, maxFocusRequestsPerSecond])
  have hfinal : (runFocusCalls env handle allow ts []).2 = ts := by
    rw [hrun.2]; rfl
  have hprune : pruneTimestamps t ts = ts := by
    unfold pruneTimestamps
    apply List.filter_eq_self.mpr
    intro x hx
    have hxb := hband x hx
    simp only [decide_eq_true_eq, Decidable.not_not]
    unfold rateLimitWindowMs at ht hxb ⊢
    omega
  refine ⟨hrun.1, hfinal, ?_⟩
  rw [hfinal]
  have hrej := focusWindowByHandle_rejected env ts t handle allow
    (by rw [hprune, hlen]; simp [maxFocusRequestsPerSecond])
  rw [hrej, hprune]

/-- C3 witness: eleven calls at time 0; the theorem applied to the ten-call
prefix and the eleventh call. -/
theorem c3_rate_limiter_witness :
    (List.replicate 10 (0 : Int)).length = 10 ∧
    (((runFocusCalls c3Env "h1" true (List.replicate 10 (0 : Int)) []).1.all
        (fun r => r.accepted) = true) ∧
     (runFocusCalls c3Env "h1" true (List.replicate 10 (0 : Int)) []).2 =
        List.replicate 10 (0 : Int) ∧
     focusWindowByHandle c3Env
        (runFocusCalls c3Env "h1" true (List.replicate 10 (0 : Int)) []).2 0
        "h1" true =
      { ret := false, accepted := false, op := none, trace := [],
        rl := List.replicate 10 (0 : Int), recorded := false,
        enumCalls := 0 }) :=
  ⟨by decide,
   c3_rate_limiter c3Env "h1" true (List.replicate 10 (0 : Int)) 0 0
     (by decide) (by decide) (by decide)⟩

/-! ## C4 and C5: focus state machine -/

/-- Case analysis of focusAttempt over the enumerator oracles: the status
trace always climbs strictly in statusRank starting from PENDING, and a
true return implies the window resolved, the appended operation completed,
and workspaceSwitched is set exactly when the window was off the current
workspace (with switching allowed, which a true return forces). -/
theorem focusAttempt_analysis (env : FocusEnv) (handle : String)
    (allow : Bool) (now : Int) :
    (List.Chain' (fun a b => statusRank a < statusRank b)
        (focusAttempt env handle allow now).2.2.1 ∧
     (focusAttempt env handle allow now).2.2.1.head? =
        some FocusStatus.PENDING) ∧
    ((focusAttempt env handle allow now).1 = true →
      ∃ wi, env.getWindowInfo handle = Except.ok (some wi) ∧
        (focusAttempt env handle allow now).2.1.status =
          FocusStatus.COMPLETED ∧
        (focusAttempt env handle allow now).2.1.workspaceSwitched =
          (!wi.isOnCurrentWorkspace && allow)) := by
  by_cases he : handle.isEmpty = true
  · simp [focusAttempt, validateHandleCalls, he]
    decide
  · by_cases hb : env.isWindowValid handle = true
    · rcases hg : env.getWindowInfo handle with e | oi
      · simp [focusAttempt, validateHandleCalls, he, hb, hg]
        decide
      · rcases oi with _ | wi
        · simp [focusAttempt, validateHandleCalls, he, hb, hg]
          decide
        · by_cases hcur : wi.isOnCurrentWorkspace = true
          · rcases hf : env.focusWindow handle with e | b
            · simp [focusAttempt, validateHandleCalls, he, hb, hg, hcur, hf]
              decide
            · rcases b with _ | _
              · simp [focusAttempt, validateHandleCalls, he, hb, hg, hcur, hf]
                decide
              · refine ⟨⟨?_, ?_⟩, fun _ => ⟨wi, rfl, ?_, ?_⟩⟩ <;>
                  simp [focusAttempt, validateHandleCalls, he, hb, hg, hcur,
                    hf, FocusOperation.complete, FocusOperation.setStatus] <;>
                  decide
          · by_cases hallow : allow = true
            · rcases ha : focusWindowAcrossWorkspaces env handle with ⟨succ, ac⟩
              rcases succ with _ | _
              · simp [focusAttempt, validateHandleCalls, he, hb, hg, hcur,
                  hallow, ha]
                decide
              · refine ⟨⟨?_, ?_⟩, fun _ => ⟨wi, rfl, ?_, ?_⟩⟩ <;>
                  simp [focusAttempt, validateHandleCalls, he, hb, hg, hcur,
                    hallow, ha, FocusOperation.complete,
                    FocusOperation.setStatus,
                    FocusOperation.markWorkspaceSwitched] <;>
                  decide
            · simp [focusAttempt, validateHandleCalls, he, hb, hg, hcur, hallow]
              decide
    · simp [focusAttempt, validateHandleCalls, he, hb]
      decide

/-- C4 counterexample: in a successful cross-workspace focus the operation
enters FOCUSING (set unconditionally after validation, before the window is
even resolved) and only afterwards SWITCHING_WORKSPACE — the opposite of
the claimed ordering, in an operation that enters both. -/
theorem c4_focusing_before_switching_counterexample :
    (focusWindowByHandle c4Env [] 0 "h1" true).trace =
      [FocusStatus.PENDING, FocusStatus.VALIDATING, FocusStatus.FOCUSING,
       FocusStatus.SWITCHING_WORKSPACE, FocusStatus.COMPLETED] ∧
    (focusWindowByHandle c4Env [] 0 "h1" true).trace.contains
      FocusStatus.FOCUSING = true ∧
    (focusWindowByHandle c4Env [] 0 "h1" true).trace.contains
      FocusStatus.SWITCHING_WORKSPACE = true ∧
    (focusWindowByHandle c4Env [] 0 "h1" true).trace.indexOf
        FocusStatus.FOCUSING <
      (focusWindowByHandle c4Env [] 0 "h1" true).trace.indexOf
        FocusStatus.SWITCHING_WORKSPACE := by
  decide

/-- C4 amended: in every focusWindowByHandle call the status moves only
forward through PENDING, VALIDATING, FOCUSING, optionally
SWITCHING_WORKSPACE, then COMPLETED or FAILED (RESTORING and CANCELLED
never occur): the trace climbs strictly in statusRank and starts at PENDING
whenever an operation exists. In particular, when both FOCUSING and
SWITCHING_WORKSPACE are entered in one operation, FOCUSING is entered
first — the code sets FOCUSING right after validation and before the
workspace check, not after the switch. -/
theorem c4_status_forward_order (env : FocusEnv) (rl : List Int) (now : Int)
    (handle : String) (allow : Bool) :
    List.Chain' (fun a b => statusRank a < statusRank b)
      (focusWindowByHandle env rl now handle allow).trace ∧
    ((focusWindowByHandle env rl now handle allow).trace = [] ∨
     (focusWindowByHandle env rl now handle allow).trace.head? =
       some FocusStatus.PENDING) := by
  have hA := (focusAttempt_analysis env handle allow now).1
  unfold focusWindowByHandle checkRateLimit
  by_cases hadm :
      (pruneTimestamps now rl).length < maxFocusRequestsPerSecond
  · rcases hfa : focusAttempt env handle allow now with ⟨ret, op, tr, calls⟩
    rw [hfa] at hA
    simp only at hA
    simp only [hfa]
    refine ⟨?_, Or.inr ?_⟩ <;> simp [hadm, hA.1, hA.2]
  · simp [hadm]

/-- C5: whenever focusWindowByHandle returns true, the operation appended
to the history exists and completed, and its workspaceSwitched flag is true
exactly when the window resolved off the current workspace with switching
allowed (a true return forces allowance in the off-workspace case). -/
theorem c5_success_completed (env : FocusEnv) (rl : List Int) (now : Int)
    (handle : String) (allow : Bool)
    (h : (focusWindowByHandle env rl now handle allow).ret = true) :
    ∃ o wi, (focusWindowByHandle env rl now handle allow).op = some o ∧
      env.getWindowInfo handle = Except.ok (some wi) ∧
      o.status = FocusStatus.COMPLETED ∧
      o.workspaceSwitched = (!wi.isOnCurrentWorkspace && allow) := by
  have hS := (focusAttempt_analysis env handle allow now).2
  unfold focusWindowByHandle checkRateLimit at h ⊢
  by_cases hadm :
      (pruneTimestamps now rl).length < maxFocusRequestsPerSecond
  · rcases hfa : focusAttempt env handle allow now with ⟨ret, op, tr, calls⟩
    rw [hfa] at hS
    simp only [hfa, hadm] at h ⊢
    simp only at hS
    obtain ⟨wi, hwi, hst, hws⟩ := hS h
    exact ⟨op, wi, by simp, hwi, hst, hws⟩
  · simp [hadm] at h

/-- C5 witness: the theorem applied to a successful same-workspace focus. -/
theorem c5_success_completed_witness :
    (focusWindowByHandle c5Env [] 0 "h1" true).ret = true ∧
    ∃ o wi, (focusWindowByHandle c5Env [] 0 "h1" true).op = some o ∧
      c5Env.getWindowInfo "h1" = Except.ok (some wi) ∧
      o.status = FocusStatus.COMPLETED ∧
      o.workspaceSwitched = (!wi.isOnCurrentWorkspace && true) :=
  ⟨by decide, c5_success_completed c5Env [] 0 "h1" true (by decide)⟩

end WindowManager
